import Mathlib

/-!
Verification development for the skeet-local service orchestration core.

The definitions below are a shallow embedding of the TypeScript sources:
  - the configuration layer (ConfigManager in src/src/opensearch/index.ts,
    third document: loadFromEnv, loadFromFile, fetchFromApi,
    refreshConfigurations);
  - the connector lifecycle shared by the four backend services
    (PostgresService, MySqlService, RedisService, OpenSearchService in their
    dsn-aware versions);
  - the ServiceManager registry (second document of src/src/mysql/index.ts).

Stateful methods become explicit state passing; backend I/O (connection
probes, query results, shutdown failures) is abstracted into explicit
deterministic parameters (the World and DbOutcome types); fallible code
returns Except.
-/

/-! ## Configuration data model -/

/-- A connection descriptor as delivered by the remote API
(fields dsn, name, is_primary of a connections array element).
Absent JSON fields are modelled as none. -/
structure ConnectionInfo where
  dsn : Option String := none
  name : Option String := none
  is_primary : Option Bool := none
deriving DecidableEq

/-- The options bag of a ServiceConfig. Only the nested connection
descriptor is ever read by the code, so it is the only field modelled. -/
structure ServiceOptions where
  connection : Option ConnectionInfo := none
deriving DecidableEq

/-- ServiceConfig from src/src/utils/configManager.ts: enabled flag,
optional connection url, optional options bag. -/
structure ServiceConfig where
  enabled : Bool
  url : Option String := none
  options : Option ServiceOptions := none
deriving DecidableEq

/-- The four well-known service kinds of SkeetConfig. -/
inductive Service where
  | postgres
  | mysql
  | redis
  | opensearch
deriving DecidableEq

/-- The key under which each service kind is stored, also used as the
activeServices entry for the kind. -/
def Service.name : Service → String
  | .postgres => "postgres"
  | .mysql => "mysql"
  | .redis => "redis"
  | .opensearch => "opensearch"

/-- The display name used in the service-not-initialized error messages. -/
def Service.displayName : Service → String
  | .postgres => "PostgreSQL"
  | .mysql => "MySQL"
  | .redis => "Redis"
  | .opensearch => "OpenSearch"

/-- SkeetConfig: one ServiceConfig per well-known kind. Unknown keys of a
file or remote source are never merged (the code guards with
`if (this.config[key])`), so the mapping has exactly these four keys. -/
def SkeetConfig := Service → ServiceConfig

/-! ## ConfigManager -/

namespace ConfigManager

/-- The all-disabled baseline that refreshConfigurations resets to. -/
def baseline : SkeetConfig := fun _ => { enabled := false }

/-- Environment input: the URL-bearing variable for each kind
(POSTGRES_URL, MYSQL_URL, REDIS_URL, OPENSEARCH_URL); none when unset. -/
def Env := Service → Option String

/-- JavaScript string truthiness: an empty string is falsy.  Returns the
string when it is present and nonempty. -/
def jsTruthy (o : Option String) : Option String :=
  o.bind (fun s => if s = "" then none else some s)

/-- loadFromEnv: for each kind whose variable is set (truthy), replace the
entry with enabled plus the url; otherwise leave the entry unchanged. -/
def loadFromEnv (env : Env) (cfg : SkeetConfig) : SkeetConfig :=
  fun k =>
    match env k with
    | some v => if v = "" then cfg k else { enabled := true, url := some v }
    | none => cfg k

/-- One well-known entry of the parsed configuration file.  A field wrapped
in some is present in the JSON object and overrides the current value under
the object spread; the code then forces enabled to true regardless of any
enabled field of the file entry. -/
structure FileEntry where
  url : Option String := none
  options : Option ServiceOptions := none
deriving DecidableEq

/-- The parsed configuration file restricted to the four well-known keys;
none for a key means the file does not mention it. -/
def FileData := Service → Option FileEntry

/-- loadFromFile: none models a missing or malformed file (the parse error
is caught and the configuration is left unchanged).  For each well-known
key present in the file, the entry is spread-merged over the current entry
and enabled is forced to true. -/
def loadFromFile (fil : Option FileData) (cfg : SkeetConfig) : SkeetConfig :=
  match fil with
  | none => cfg
  | some entries =>
    fun k =>
      match entries k with
      | none => cfg k
      | some e =>
        { enabled := true
          url := e.url.orElse (fun _ => (cfg k).url)
          options := e.options.orElse (fun _ => (cfg k).options) }

/-- The remote API outcome.  The unavailable constructor collapses every
case in which fetchFromApi leaves the configuration untouched: missing API
key, non-200 status, transport or parse failure, and a body without an
integrations object.  Otherwise the response carries, per kind, the
optional connections array. -/
inductive ApiData where
  | unavailable
  | integrations (conns : Service → Option (List ConnectionInfo))

/-- The connection selected by fetchFromApi for a kind: the first element
flagged is_primary === true, provided the connections array is present and
nonempty.  none means the code leaves that kind untouched. -/
def apiPrimary (api : ApiData) (k : Service) : Option ConnectionInfo :=
  match api with
  | .unavailable => none
  | .integrations conns =>
    match conns k with
    | none => none
    | some cs =>
      if cs.length > 0 then cs.find? (fun c => c.is_primary = some true)
      else none

/-- fetchFromApi: for each kind with a nonempty connections array holding a
primary connection, replace the entry with enabled, url set to the primary
dsn (empty string when the dsn is absent), and the primary descriptor under
options.connection; every other kind is left untouched. -/
def fetchFromApi (api : ApiData) (cfg : SkeetConfig) : SkeetConfig :=
  fun k =>
    match apiPrimary api k with
    | some primary =>
      { enabled := true
        url := some (primary.dsn.getD "")
        options := some { connection := some primary } }
    | none => cfg k

/-- discoverServices is a placeholder in the source and changes nothing. -/
def discoverServices (cfg : SkeetConfig) : SkeetConfig := cfg

/-- refreshConfigurations: reset to the baseline, then apply environment,
file and remote layers in order, then the no-op discovery step. -/
def refreshConfigurations (env : Env) (fil : Option FileData) (api : ApiData) :
    SkeetConfig :=
  discoverServices (fetchFromApi api (loadFromFile fil (loadFromEnv env baseline)))

end ConfigManager

/-! ## Tool declarations -/

/-- A tool declaration: name, description, and the input schema reduced to
its property list (name and primitive type) and required-parameter list. -/
structure ToolDecl where
  name : String
  description : String
  properties : List (String × String) := []
  required : List String := []
deriving DecidableEq

/-- PostgresService.getTools. -/
def PostgresService.tools : List ToolDecl :=
  [{ name := "postgres_query"
     description := "Run a read-only SQL query against PostgreSQL"
     properties := [("sql", "string")]
     required := ["sql"] }]

/-- MySqlService.getTools. -/
def MySqlService.tools : List ToolDecl :=
  [{ name := "mysql_query"
     description := "Run a read-only SQL query against MySQL"
     properties := [("sql", "string")]
     required := ["sql"] }]

/-- RedisService.getTools. -/
def RedisService.tools : List ToolDecl :=
  [{ name := "redis_query"
     description := "Execute Redis commands (primarily read operations)"
     properties := [("command", "string")]
     required := ["command"] },
   { name := "redis_get"
     description := "Get value for a specific Redis key"
     properties := [("key", "string")]
     required := ["key"] },
   { name := "redis_set"
     description := "Set value for a specific Redis key"
     properties := [("key", "string"), ("value", "string"), ("expiry", "number")]
     required := ["key", "value"] }]

/-- OpenSearchService.getTools. -/
def OpenSearchService.tools : List ToolDecl :=
  [{ name := "opensearch_search"
     description := "Run a search query against OpenSearch"
     properties := [("query", "string"), ("index", "string")]
     required := ["query"] }]

/-- The built-in refresh tool appended by ServiceManager.initialize. -/
def refreshTool : ToolDecl :=
  { name := "refresh_skeet_tools"
    description := "Refreshes the available Skeet tools and configurations" }

/-- The tool list a given service kind contributes when active. -/
def toolsOf : Service → List ToolDecl
  | .postgres => PostgresService.tools
  | .mysql => MySqlService.tools
  | .redis => RedisService.tools
  | .opensearch => OpenSearchService.tools

/-! ## Connector lifecycle -/

/-- A backend connector instance: the ServiceConfig it was constructed from
and whether its connection handle (pool or client) is currently non-null. -/
structure Connector where
  config : ServiceConfig
  live : Bool
deriving DecidableEq

/-- The dsn taken from options.connection when present and truthy.  The
connectors read connectionDetails = config.options?.connection or the empty
object, and test connectionDetails.dsn for truthiness. -/
def connectionDsn (cfg : ServiceConfig) : Option String :=
  ConfigManager.jsTruthy ((cfg.options.bind (·.connection)).bind (·.dsn))

/-- The deterministic external environment: whether the liveness probe of a
backend succeeds for a given config, and whether releasing a backend handle
throws during shutdown. -/
structure World where
  canConnect : Service → ServiceConfig → Bool
  shutdownFails : Service → Bool

/-- Connector construction plus initialize(): choose the dsn from
options.connection first, else the config url, else fail without creating a
handle; with a handle created, the probe outcome decides the returned flag.
A failed probe leaves the handle assigned (live) but makes the method
return false; exceptions never escape. -/
def connectorInit (w : World) (k : Service) (cfg : ServiceConfig) :
    Connector × Bool :=
  match (connectionDsn cfg).orElse (fun _ => ConfigManager.jsTruthy cfg.url) with
  | none => ({ config := cfg, live := false }, false)
  | some _ => ({ config := cfg, live := true }, w.canConnect k cfg)

/-- Connector shutdown.  When the handle is live and releasing it throws
(pool.end or client.quit rejecting), the method propagates the error and
the handle stays assigned; otherwise the handle is cleared.  On an already
shut down connector this is a no-op. -/
def connectorShutdown (fails : Bool) (c : Connector) : Except Unit Connector :=
  if c.live then
    if fails then .error () else .ok { c with live := false }
  else .ok c

/-! ## ServiceManager registry state -/

/-- The mutable fields of the ServiceManager singleton. -/
structure ServiceManagerState where
  postgresService : Option Connector := none
  mysqlService : Option Connector := none
  redisService : Option Connector := none
  opensearchService : Option Connector := none
  activeServices : List String := []
  tools : List ToolDecl := []
  isApiAuthenticated : Bool := false
deriving DecidableEq

/-- The connector field owned by a service kind. -/
def getService (k : Service) (st : ServiceManagerState) : Option Connector :=
  match k with
  | .postgres => st.postgresService
  | .mysql => st.mysqlService
  | .redis => st.redisService
  | .opensearch => st.opensearchService

/-- Overwrite the connector field owned by a service kind. -/
def setService (k : Service) (oc : Option Connector)
    (st : ServiceManagerState) : ServiceManagerState :=
  match k with
  | .postgres => { st with postgresService := oc }
  | .mysql => { st with mysqlService := oc }
  | .redis => { st with redisService := oc }
  | .opensearch => { st with opensearchService := oc }

/-- The outcome of configManager.refreshConfigurations() together with the
isApiAuthenticated flag read right after it. -/
structure ResolvedConfig where
  config : SkeetConfig
  apiAuthenticated : Bool

namespace ServiceManager

/-- One per-kind block of ServiceManager.initialize: when the resolved
config enables the kind, construct the connector and initialize it; on
success record it, append the kind to activeServices and its tools to the
tool list; on failure discard the instance (field set to null).  A disabled
kind is not touched at all. -/
def initServiceStep (w : World) (rc : SkeetConfig) (k : Service)
    (st : ServiceManagerState) : ServiceManagerState :=
  if (rc k).enabled then
    let res := connectorInit w k (rc k)
    if res.2 then
      { setService k (some res.1) st with
        activeServices := st.activeServices ++ [k.name]
        tools := st.tools ++ toolsOf k }
    else setService k none st
  else st

/-- ServiceManager.initialize: resolve the configuration (an error return
models configManager.refreshConfigurations throwing, which the catch block
converts into a false return with the state untouched); then run the four
per-kind blocks in source order and append the refresh tool.  Note the
method never resets activeServices or tools: it appends to them. -/
def initServices (w : World) (resolved : Except Unit ResolvedConfig)
    (st : ServiceManagerState) : ServiceManagerState × Bool :=
  match resolved with
  | .error _ => (st, false)
  | .ok r =>
    let st1 := { st with isApiAuthenticated := r.apiAuthenticated }
    let st2 := initServiceStep w r.config .postgres st1
    let st3 := initServiceStep w r.config .mysql st2
    let st4 := initServiceStep w r.config .redis st3
    let st5 := initServiceStep w r.config .opensearch st4
    ({ st5 with tools := st5.tools ++ [refreshTool] }, true)

/-- One guarded block of ServiceManager.shutdown: a null service field is
skipped, otherwise the connector shutdown runs and may raise. -/
def shutdownStep (fails : Bool) (oc : Option Connector) :
    Except Unit (Option Connector) :=
  match oc with
  | none => .ok none
  | some c => (connectorShutdown fails c).map some

/-- ServiceManager.shutdown: shut the four connectors down in source order
inside one try block.  A throwing connector shutdown is caught by the
single catch, which logs and returns, leaving the remaining connectors
untouched; the registry fields (activeServices, tools, connector
references) are never cleared here.  The OpenSearch client has no close
method, so its shutdown only clears the handle and cannot throw. -/
def shutdown (w : World) (st : ServiceManagerState) : ServiceManagerState :=
  match shutdownStep (w.shutdownFails .postgres) st.postgresService with
  | .error _ => st
  | .ok pg =>
    let st1 := { st with postgresService := pg }
    match shutdownStep (w.shutdownFails .mysql) st1.mysqlService with
    | .error _ => st1
    | .ok my =>
      let st2 := { st1 with mysqlService := my }
      match shutdownStep (w.shutdownFails .redis) st2.redisService with
      | .error _ => st2
      | .ok rd =>
        let st3 := { st2 with redisService := rd }
        { st3 with
          opensearchService := st3.opensearchService.map (fun c => { c with live := false }) }

/-- The state reset performed at the start of refreshServices. -/
def resetServices (st : ServiceManagerState) : ServiceManagerState :=
  { st with
    activeServices := []
    tools := []
    postgresService := none
    mysqlService := none
    redisService := none
    opensearchService := none }

/-- ServiceManager.refreshServices: shut down the existing services, reset
the registry state, then run initialize again and return its outcome. -/
def refreshServices (w : World) (resolved : Except Unit ResolvedConfig)
    (st : ServiceManagerState) : ServiceManagerState × Bool :=
  ServiceManager.initServices w resolved (resetServices (shutdown w st))

/-- ServiceManager.getTools. -/
def getTools (st : ServiceManagerState) : List ToolDecl := st.tools

/-- ServiceManager.getActiveServices. -/
def getActiveServices (st : ServiceManagerState) : List String :=
  st.activeServices

end ServiceManager

/-! ## Error taxonomy for tool execution -/

/-- The errors tool execution can surface: the not-initialized errors
thrown both by the registry (null service field) and by a connector (null
handle), the Redis allow-list rejection, the unknown-tool default case of
the switch, and backend errors propagated verbatim. -/
inductive ToolError where
  | serviceNotInitialized (service : String)
  | commandNotAllowed (command : String)
  | unknownTool (name : String)
  | upstream (msg : String)
deriving DecidableEq

deriving instance DecidableEq for Except

/-! ## RedisService.executeCommand -/

/-- The whitespace characters of the JavaScript regex class backslash-s
that can occur in a command string. -/
def isJsWs (c : Char) : Bool :=
  c = ' ' || c = '\t' || c = '\n' || c = '\r' || c = '\x0b' || c = '\x0c'

/-- Worker for the whitespace split.  The flag records whether the scan is
inside a whitespace run whose piece boundary has already been emitted, so
a maximal run produces exactly one boundary. -/
def splitWsCharsAux : Bool → List Char → List (List Char)
  | _, [] => [[]]
  | skip, c :: cs =>
    if isJsWs c then
      if skip then splitWsCharsAux true cs
      else [] :: splitWsCharsAux true cs
    else
      match splitWsCharsAux false cs with
      | [] => [[c]]
      | t :: ts => (c :: t) :: ts

/-- JavaScript String.prototype.split with a one-or-more-whitespace regex,
on character lists: pieces between maximal whitespace runs, with an empty
first piece when the string starts with whitespace and an empty last piece
when it ends with one.  The result is never the empty list. -/
def splitWsChars (l : List Char) : List (List Char) :=
  splitWsCharsAux false l

/-- command.split with the whitespace regex, as used by executeCommand. -/
def jsSplitWs (s : String) : List String :=
  (splitWsChars s.data).map List.asString

/-- String.prototype.toUpperCase, character-wise (the commands concerned
are ASCII), defined on the character list so that it evaluates. -/
def upperString (s : String) : String :=
  (s.data.map Char.toUpper).asString

/-- The first whitespace-delimited piece of the command, upper-cased: the
commandName computed by executeCommand.  The split result is never empty,
so the default value is never used. -/
def firstTokenUpper (command : String) : String :=
  upperString ((jsSplitWs command).headD "")

/-- The executeCommand allow-list, verbatim from the source. -/
def allowedCommands : List String :=
  ["GET", "MGET", "STRLEN", "HGET", "HGETALL", "HMGET", "HLEN", "HKEYS", "HVALS",
   "LLEN", "LRANGE", "LINDEX", "SISMEMBER", "SMEMBERS", "SCARD", "ZRANGE", "ZRANGEBYSCORE",
   "ZCARD", "ZSCORE", "ZCOUNT", "KEYS", "TYPE", "TTL", "EXISTS", "INFO", "SCAN",
   "SINTER", "SUNION", "SDIFF", "SRANDMEMBER",
   "SADD", "SREM", "SPOP", "SMOVE", "SINTERSTORE", "SUNIONSTORE", "SDIFFSTORE"]

/-- RedisService.executeCommand: with a null client the not-initialized
error is thrown; otherwise the command is split on whitespace, the first
piece upper-cased, and checked against the allow-list before anything is
sent.  A successful return value is the argument vector handed to
client.sendCommand, so an error return means no call reached the
backend. -/
def RedisService.executeCommand (c : Connector) (command : String) :
    Except ToolError (List String) :=
  if c.live then
    let commandParts := jsSplitWs command
    let commandName := upperString (commandParts.headD "")
    if allowedCommands.contains commandName then .ok commandParts
    else .error (.commandNotAllowed commandName)
  else .error (.serviceNotInitialized "Redis")

/-! ## Relational executeQuery (read-only transaction wrapper) -/

/-- One observable operation on a relational backend connection. -/
inductive DbOp where
  | query (sql : String)
  | beginTx
  | rollbackTx
  | release
deriving DecidableEq

/-- The backend behaviour for one executeQuery invocation: whether the
transaction setup statements succeed (with the raised message when not),
the outcome of the invoked query itself (rows modelled opaquely as
strings), and whether the final rollback succeeds. -/
structure DbOutcome where
  beginOk : Bool := true
  beginErr : String := ""
  result : Except String (List String) := .ok []
  rollbackOk : Bool := true

/-- PostgresService.executeQuery: null pool throws not-initialized; then
BEGIN TRANSACTION READ ONLY, the invoked query, and a finally block that
always attempts ROLLBACK (a rollback failure is logged, never rethrown)
and releases the client.  Returns the caller-visible result and the trace
of operations performed on the connection. -/
def PostgresService.executeQuery (c : Connector) (b : DbOutcome)
    (sql : String) : Except ToolError (List String) × List DbOp :=
  if c.live then
    if b.beginOk then
      match b.result with
      | .ok rows =>
        (.ok rows,
         [.query "BEGIN TRANSACTION READ ONLY", .query sql,
          .query "ROLLBACK", .release])
      | .error e =>
        (.error (.upstream e),
         [.query "BEGIN TRANSACTION READ ONLY", .query sql,
          .query "ROLLBACK", .release])
    else
      (.error (.upstream b.beginErr),
       [.query "BEGIN TRANSACTION READ ONLY", .query "ROLLBACK", .release])
  else (.error (.serviceNotInitialized "PostgreSQL"), [])

/-- MySqlService.executeQuery: same shape with SET SESSION TRANSACTION
READ ONLY plus beginTransaction as setup (modelled as one setup outcome)
and connection.rollback in the finally block. -/
def MySqlService.executeQuery (c : Connector) (b : DbOutcome)
    (sql : String) : Except ToolError (List String) × List DbOp :=
  if c.live then
    if b.beginOk then
      match b.result with
      | .ok rows =>
        (.ok rows,
         [.query "SET SESSION TRANSACTION READ ONLY", .beginTx, .query sql,
          .rollbackTx, .release])
      | .error e =>
        (.error (.upstream e),
         [.query "SET SESSION TRANSACTION READ ONLY", .beginTx, .query sql,
          .rollbackTx, .release])
    else
      (.error (.upstream b.beginErr),
       [.query "SET SESSION TRANSACTION READ ONLY", .rollbackTx, .release])
  else (.error (.serviceNotInitialized "MySQL"), [])

/-! ## ServiceManager.executeTool -/

/-- What a successful executeTool call did: either the in-registry refresh
summary object, or the invocation delegated to the owning connector with
the arguments it received. -/
inductive Dispatched where
  | refreshSummary (status : String) (message : String)
      (apiIntegrated : Bool) (activeServices : List String)
  | pgQuery (sql : String)
  | myQuery (sql : String)
  | redisSend (parts : List String)
  | redisGet (key : String)
  | redisSet (key : String) (value : String) (expiry : Option Nat)
  | osSearch (query : String) (index : Option String)
deriving DecidableEq

/-- The arguments object of a tool call, restricted to the fields the
switch reads.  Field presence is guaranteed by the tool schemas and is not
modelled. -/
structure ToolArgs where
  sql : String := ""
  command : String := ""
  key : String := ""
  value : String := ""
  expiry : Option Nat := none
  query : String := ""
  index : Option String := none

/-- PostgresService.executeQuery as seen by the dispatcher: the connector
rejects when its pool is null, otherwise the query is delegated (the
invocation semantics are PostgresService.executeQuery above). -/
def PostgresService.dispatchQuery (c : Connector) (sql : String) :
    Except ToolError Dispatched :=
  if c.live then .ok (.pgQuery sql)
  else .error (.serviceNotInitialized "PostgreSQL")

/-- MySqlService.executeQuery as seen by the dispatcher. -/
def MySqlService.dispatchQuery (c : Connector) (sql : String) :
    Except ToolError Dispatched :=
  if c.live then .ok (.myQuery sql)
  else .error (.serviceNotInitialized "MySQL")

/-- RedisService.get: null client throws not-initialized, otherwise the
read is delegated to the backend. -/
def RedisService.dispatchGet (c : Connector) (key : String) :
    Except ToolError Dispatched :=
  if c.live then .ok (.redisGet key)
  else .error (.serviceNotInitialized "Redis")

/-- RedisService.set: null client throws not-initialized, otherwise the
write (with its optional expiry) is delegated to the backend. -/
def RedisService.dispatchSet (c : Connector) (key value : String)
    (expiry : Option Nat) : Except ToolError Dispatched :=
  if c.live then .ok (.redisSet key value expiry)
  else .error (.serviceNotInitialized "Redis")

/-- OpenSearchService.search: null client throws not-initialized,
otherwise the query (structured or plain, resolved inside the connector)
is delegated to the backend. -/
def OpenSearchService.dispatchSearch (c : Connector) (query : String)
    (index : Option String) : Except ToolError Dispatched :=
  if c.live then .ok (.osSearch query index)
  else .error (.serviceNotInitialized "OpenSearch")

/-- The tool names the executeTool switch recognizes. -/
def knownToolNames : List String :=
  ["refresh_skeet_tools", "postgres_query", "mysql_query", "redis_query",
   "redis_get", "redis_set", "opensearch_search"]

/-- ServiceManager.executeTool: the refresh tool is handled in-registry by
invoking refreshServices and building the status summary from the
refreshed state; every other recognized name is routed to its owning
connector after the null check on the service field; the default case
throws the unknown-tool error. -/
def ServiceManager.executeTool (w : World)
    (resolved : Except Unit ResolvedConfig) (st : ServiceManagerState)
    (toolName : String) (args : ToolArgs) :
    ServiceManagerState × Except ToolError Dispatched :=
  if toolName = "refresh_skeet_tools" then
    let res := ServiceManager.refreshServices w resolved st
    (res.1,
     .ok (.refreshSummary
       (if res.2 then "success" else "error")
       (if res.2 then "Successfully refreshed Skeet tools and configurations"
        else "Failed to refresh Skeet tools and configurations")
       res.1.isApiAuthenticated
       res.1.activeServices))
  else if toolName = "postgres_query" then
    match st.postgresService with
    | none => (st, .error (.serviceNotInitialized "PostgreSQL"))
    | some c => (st, PostgresService.dispatchQuery c args.sql)
  else if toolName = "mysql_query" then
    match st.mysqlService with
    | none => (st, .error (.serviceNotInitialized "MySQL"))
    | some c => (st, MySqlService.dispatchQuery c args.sql)
  else if toolName = "redis_query" then
    match st.redisService with
    | none => (st, .error (.serviceNotInitialized "Redis"))
    | some c => (st, (RedisService.executeCommand c args.command).map .redisSend)
  else if toolName = "redis_get" then
    match st.redisService with
    | none => (st, .error (.serviceNotInitialized "Redis"))
    | some c => (st, RedisService.dispatchGet c args.key)
  else if toolName = "redis_set" then
    match st.redisService with
    | none => (st, .error (.serviceNotInitialized "Redis"))
    | some c => (st, RedisService.dispatchSet c args.key args.value args.expiry)
  else if toolName = "opensearch_search" then
    match st.opensearchService with
    | none => (st, .error (.serviceNotInitialized "OpenSearch"))
    | some c => (st, OpenSearchService.dispatchSearch c args.query args.index)
  else (st, .error (.unknownTool toolName))

/-! ## Helper definitions and lemmas -/

/-- A connector whose handle has been released. -/
def Connector.stop (c : Connector) : Connector := { c with live := false }

/-- Whether a kind ends up active in one initialize pass: its resolved
config enables it and its connector initialize returns true. -/
def activeService? (w : World) (rc : SkeetConfig) (k : Service) : Bool :=
  (rc k).enabled && (connectorInit w k (rc k)).2

/-- The kinds recorded as active by one initialize pass, in source order. -/
def activeKinds (w : World) (rc : SkeetConfig) : List Service :=
  [Service.postgres, Service.mysql, Service.redis, Service.opensearch].filter
    (activeService? w rc)

theorem setService_tools (k : Service) (oc : Option Connector)
    (st : ServiceManagerState) : (setService k oc st).tools = st.tools := by
  cases k <;> rfl

theorem setService_active (k : Service) (oc : Option Connector)
    (st : ServiceManagerState) :
    (setService k oc st).activeServices = st.activeServices := by
  cases k <;> rfl

theorem setService_api (k : Service) (oc : Option Connector)
    (st : ServiceManagerState) :
    (setService k oc st).isApiAuthenticated = st.isApiAuthenticated := by
  cases k <;> rfl

theorem getService_setService_self (k : Service) (oc : Option Connector)
    (st : ServiceManagerState) : getService k (setService k oc st) = oc := by
  cases k <;> rfl

theorem getService_setService_ne (j k : Service) (h : j ≠ k)
    (oc : Option Connector) (st : ServiceManagerState) :
    getService j (setService k oc st) = getService j st := by
  cases j <;> cases k <;> first | rfl | exact absurd rfl h

theorem initServiceStep_tools (w : World) (rc : SkeetConfig) (k : Service)
    (st : ServiceManagerState) :
    (ServiceManager.initServiceStep w rc k st).tools
      = st.tools ++ (if activeService? w rc k then toolsOf k else []) := by
  unfold ServiceManager.initServiceStep activeService?
  cases hE : (rc k).enabled <;> cases hS : (connectorInit w k (rc k)).2 <;>
    simp [hE, hS, setService_tools]

theorem initServiceStep_active (w : World) (rc : SkeetConfig) (k : Service)
    (st : ServiceManagerState) :
    (ServiceManager.initServiceStep w rc k st).activeServices
      = st.activeServices ++ (if activeService? w rc k then [k.name] else []) := by
  unfold ServiceManager.initServiceStep activeService?
  cases hE : (rc k).enabled <;> cases hS : (connectorInit w k (rc k)).2 <;>
    simp [hE, hS, setService_active]

theorem initServiceStep_api (w : World) (rc : SkeetConfig) (k : Service)
    (st : ServiceManagerState) :
    (ServiceManager.initServiceStep w rc k st).isApiAuthenticated
      = st.isApiAuthenticated := by
  unfold ServiceManager.initServiceStep
  cases hE : (rc k).enabled <;> cases hS : (connectorInit w k (rc k)).2 <;>
    simp [hE, hS, setService_api]

theorem initServiceStep_getService_self (w : World) (rc : SkeetConfig)
    (k : Service) (st : ServiceManagerState) :
    getService k (ServiceManager.initServiceStep w rc k st)
      = if activeService? w rc k then some (connectorInit w k (rc k)).1
        else if (rc k).enabled then none else getService k st := by
  unfold ServiceManager.initServiceStep activeService?
  cases hE : (rc k).enabled <;> cases hS : (connectorInit w k (rc k)).2 <;>
    simp [hE, hS, getService_setService_self]
  case true.true =>
    cases k <;> rfl

theorem initServiceStep_getService_ne (w : World) (rc : SkeetConfig)
    (j k : Service) (h : j ≠ k) (st : ServiceManagerState) :
    getService j (ServiceManager.initServiceStep w rc k st)
      = getService j st := by
  unfold ServiceManager.initServiceStep
  cases hE : (rc k).enabled <;> cases hS : (connectorInit w k (rc k)).2 <;>
    simp [hE, hS, getService_setService_ne j k h]
  case true.true =>
    cases j <;> cases k <;> first | rfl | exact absurd rfl h

theorem connectorShutdown_noFail (c : Connector) :
    connectorShutdown false c = .ok c.stop := by
  unfold connectorShutdown Connector.stop
  cases c with
  | mk cfg l => cases l <;> simp

theorem shutdownStep_noFail (oc : Option Connector) :
    ServiceManager.shutdownStep false oc = .ok (oc.map Connector.stop) := by
  cases oc <;> simp [ServiceManager.shutdownStep, connectorShutdown_noFail,
    Except.map]

theorem shutdown_noFail (w : World) (st : ServiceManagerState)
    (h : ∀ k, w.shutdownFails k = false) :
    ServiceManager.shutdown w st
      = { st with
          postgresService := st.postgresService.map Connector.stop
          mysqlService := st.mysqlService.map Connector.stop
          redisService := st.redisService.map Connector.stop
          opensearchService := st.opensearchService.map Connector.stop } := by
  unfold ServiceManager.shutdown
  simp only [h, shutdownStep_noFail]
  rfl

theorem connector_stop_stop (c : Connector) : c.stop.stop = c.stop := rfl

theorem option_stop_stop (oc : Option Connector) :
    (oc.map Connector.stop).map Connector.stop = oc.map Connector.stop := by
  cases oc <;> rfl

theorem initServices_ok_snd (w : World) (r : ResolvedConfig)
    (st : ServiceManagerState) :
    (ServiceManager.initServices w (.ok r) st).2 = true := rfl

theorem initServices_error (w : World) (st : ServiceManagerState) :
    ServiceManager.initServices w (.error ()) st = (st, false) := rfl

theorem initServices_ok_tools (w : World) (r : ResolvedConfig)
    (st : ServiceManagerState) :
    (ServiceManager.initServices w (.ok r) st).1.tools
      = st.tools ++ ((if activeService? w r.config .postgres then toolsOf .postgres else [])
          ++ (if activeService? w r.config .mysql then toolsOf .mysql else [])
          ++ (if activeService? w r.config .redis then toolsOf .redis else [])
          ++ (if activeService? w r.config .opensearch then toolsOf .opensearch else [])
          ++ [refreshTool]) := by
  simp [ServiceManager.initServices, initServiceStep_tools]

theorem initServices_ok_active (w : World) (r : ResolvedConfig)
    (st : ServiceManagerState) :
    (ServiceManager.initServices w (.ok r) st).1.activeServices
      = st.activeServices
        ++ ((if activeService? w r.config .postgres then [Service.name .postgres] else [])
          ++ (if activeService? w r.config .mysql then [Service.name .mysql] else [])
          ++ (if activeService? w r.config .redis then [Service.name .redis] else [])
          ++ (if activeService? w r.config .opensearch then [Service.name .opensearch] else [])) := by
  simp [ServiceManager.initServices, initServiceStep_active]

theorem initServices_ok_api (w : World) (r : ResolvedConfig)
    (st : ServiceManagerState) :
    (ServiceManager.initServices w (.ok r) st).1.isApiAuthenticated
      = r.apiAuthenticated := by
  simp [ServiceManager.initServices, initServiceStep_api]

theorem activeKinds_flatMap (w : World) (rc : SkeetConfig) :
    (activeKinds w rc).flatMap toolsOf
      = (if activeService? w rc .postgres then toolsOf .postgres else [])
        ++ (if activeService? w rc .mysql then toolsOf .mysql else [])
        ++ (if activeService? w rc .redis then toolsOf .redis else [])
        ++ (if activeService? w rc .opensearch then toolsOf .opensearch else []) := by
  unfold activeKinds
  cases h1 : activeService? w rc .postgres <;>
    cases h2 : activeService? w rc .mysql <;>
      cases h3 : activeService? w rc .redis <;>
        cases h4 : activeService? w rc .opensearch <;>
          simp [h1, h2, h3, h4]

theorem activeKinds_map_name (w : World) (rc : SkeetConfig) :
    (activeKinds w rc).map Service.name
      = (if activeService? w rc .postgres then [Service.name .postgres] else [])
        ++ (if activeService? w rc .mysql then [Service.name .mysql] else [])
        ++ (if activeService? w rc .redis then [Service.name .redis] else [])
        ++ (if activeService? w rc .opensearch then [Service.name .opensearch] else []) := by
  unfold activeKinds
  cases h1 : activeService? w rc .postgres <;>
    cases h2 : activeService? w rc .mysql <;>
      cases h3 : activeService? w rc .redis <;>
        cases h4 : activeService? w rc .opensearch <;>
          simp [h1, h2, h3, h4]

theorem activeTools_names_nodup (w : World) (rc : SkeetConfig) :
    ((((activeKinds w rc).flatMap toolsOf) ++ [refreshTool]).map ToolDecl.name).Nodup := by
  rw [activeKinds_flatMap]
  cases h1 : activeService? w rc .postgres <;>
    cases h2 : activeService? w rc .mysql <;>
      cases h3 : activeService? w rc .redis <;>
        cases h4 : activeService? w rc .opensearch <;> decide

theorem reset_tools (st : ServiceManagerState) :
    (ServiceManager.resetServices st).tools = [] := rfl

theorem reset_active (st : ServiceManagerState) :
    (ServiceManager.resetServices st).activeServices = [] := rfl

theorem initServices_getService (w : World) (r : ResolvedConfig)
    (st : ServiceManagerState) (k : Service) :
    getService k (ServiceManager.initServices w (.ok r) st).1
      = if activeService? w r.config k then some (connectorInit w k (r.config k)).1
        else if (r.config k).enabled then none else getService k st := by
  have hbase : ∀ (j : Service) (st0 : ServiceManagerState),
      getService j { st0 with isApiAuthenticated := r.apiAuthenticated }
        = getService j st0 := by
    intro j st0; cases j <;> rfl
  have htop : ∀ (j : Service) (st0 : ServiceManagerState)
      (l : List ToolDecl),
      getService j { st0 with tools := l } = getService j st0 := by
    intro j st0 l; cases j <;> rfl
  unfold ServiceManager.initServices
  cases k
  case postgres =>
    simp only [htop, initServiceStep_getService_ne w r.config .postgres .opensearch (by simp),
      initServiceStep_getService_ne w r.config .postgres .redis (by simp),
      initServiceStep_getService_ne w r.config .postgres .mysql (by simp),
      initServiceStep_getService_self, hbase]
  case mysql =>
    simp only [htop, initServiceStep_getService_ne w r.config .mysql .opensearch (by simp),
      initServiceStep_getService_ne w r.config .mysql .redis (by simp),
      initServiceStep_getService_self,
      initServiceStep_getService_ne w r.config .mysql .postgres (by simp), hbase]
  case redis =>
    simp only [htop, initServiceStep_getService_ne w r.config .redis .opensearch (by simp),
      initServiceStep_getService_self,
      initServiceStep_getService_ne w r.config .redis .mysql (by simp),
      initServiceStep_getService_ne w r.config .redis .postgres (by simp), hbase]
  case opensearch =>
    simp only [htop, initServiceStep_getService_self,
      initServiceStep_getService_ne w r.config .opensearch .redis (by simp),
      initServiceStep_getService_ne w r.config .opensearch .mysql (by simp),
      initServiceStep_getService_ne w r.config .opensearch .postgres (by simp), hbase]

theorem reset_getService (k : Service) (st : ServiceManagerState) :
    getService k (ServiceManager.resetServices st) = none := by
  cases k <;> rfl

theorem refresh_ok_tools (w : World) (r : ResolvedConfig)
    (st : ServiceManagerState) :
    (ServiceManager.refreshServices w (.ok r) st).1.tools
      = (activeKinds w r.config).flatMap toolsOf ++ [refreshTool] := by
  unfold ServiceManager.refreshServices
  rw [initServices_ok_tools, reset_tools, activeKinds_flatMap]
  simp

theorem refresh_activeServices (w : World)
    (resolved : Except Unit ResolvedConfig) (st : ServiceManagerState) :
    (ServiceManager.refreshServices w resolved st).1.activeServices
      = match resolved with
        | .ok r => (activeKinds w r.config).map Service.name
        | .error _ => [] := by
  cases resolved with
  | error e =>
    cases e
    unfold ServiceManager.refreshServices
    rw [initServices_error]
    exact reset_active _
  | ok r =>
    show (ServiceManager.refreshServices w (.ok r) st).1.activeServices
      = (activeKinds w r.config).map Service.name
    unfold ServiceManager.refreshServices
    rw [initServices_ok_active, reset_active, activeKinds_map_name]
    simp

/-! ## Shared concrete fixtures -/

/-- A world in which every probe succeeds and no shutdown throws. -/
def wEx : World :=
  { canConnect := fun _ _ => true, shutdownFails := fun _ => false }

/-- A resolved configuration enabling only Redis, via a url. -/
def cfgRedisOnly : SkeetConfig := fun k =>
  match k with
  | .redis => { enabled := true, url := some "redis://localhost:6379" }
  | _ => { enabled := false }

/-- The resolution outcome used by the concrete scenarios. -/
def rEx : ResolvedConfig := { config := cfgRedisOnly, apiAuthenticated := false }

/-- A resolved configuration enabling PostgreSQL and MySQL via urls. -/
def cfgPgMy : SkeetConfig := fun k =>
  match k with
  | .postgres => { enabled := true, url := some "postgresql://localhost/db" }
  | .mysql => { enabled := true, url := some "mysql://localhost/db" }
  | _ => { enabled := false }

/-- The resolution outcome enabling PostgreSQL and MySQL. -/
def rPgMy : ResolvedConfig := { config := cfgPgMy, apiAuthenticated := false }

/-- A world in which probes succeed but the PostgreSQL pool throws when
ended. -/
def wFailPg : World :=
  { canConnect := fun _ _ => true
    shutdownFails := fun k => k = .postgres }

/-- A live Redis connector fixture. -/
def cRedis : Connector :=
  { config := { enabled := true, url := some "redis://localhost:6379" }, live := true }

/-! ## Claim C1 -/

/-- Claim C1 counterexample: with only Redis enabled and reachable, running
initialize twice in a row from the fresh state does not reproduce the same
tool list (the second call appends a second copy of every Redis tool and of
the refresh tool), refuting that the tool list is recomputed from scratch
on every call to initialize. -/
theorem c1_counterexample :
    ¬ ((ServiceManager.initServices wEx (.ok rEx)
          (ServiceManager.initServices wEx (.ok rEx) {}).1).1.tools
        = (ServiceManager.initServices wEx (.ok rEx) {}).1.tools) := by
  decide

/-- Claim C1 (amended): initialize appends the newly active connectors
tools plus the refresh tool to the tool list it finds; consequently after
refreshServices, which resets the registry state before re-initializing
(and likewise after the first initialize of a fresh registry, whose tool
list is empty), the tool list is exactly the concatenation of the active
connectors tool declarations followed by the refresh tool, with no
duplicate tool names. -/
theorem c1_tools_recomputed_on_refresh (w : World) (r : ResolvedConfig)
    (st : ServiceManagerState) :
    ((ServiceManager.initServices w (.ok r) st).1.tools
        = st.tools ++ ((activeKinds w r.config).flatMap toolsOf ++ [refreshTool]))
    ∧ (ServiceManager.getTools (ServiceManager.refreshServices w (.ok r) st).1
        = (activeKinds w r.config).flatMap toolsOf ++ [refreshTool])
    ∧ ((ServiceManager.getTools
          (ServiceManager.refreshServices w (.ok r) st).1).map ToolDecl.name).Nodup := by
  refine ⟨?_, ?_, ?_⟩
  · rw [initServices_ok_tools, activeKinds_flatMap]
  · exact refresh_ok_tools w r st
  · rw [ServiceManager.getTools, refresh_ok_tools]
    exact activeTools_names_nodup w r.config

/-! ## Claim C4 -/

/-- Claim C4: initialize returns true whenever configuration resolution
succeeds, however many individual connectors failed; it returns false
exactly on the internal error path (configuration resolution throwing),
leaving the state untouched there; a kind whose connector initialize fails
is discarded (its service field is null) and its name is absent from the
active-service list, while every successfully initialized kind is present
with its connector retained. -/
theorem c4_initialize_overall_success (w : World) (r : ResolvedConfig)
    (st : ServiceManagerState) :
    ((ServiceManager.initServices w (.ok r) (ServiceManager.resetServices st)).2 = true)
    ∧ (ServiceManager.initServices w (.error ()) st = (st, false))
    ∧ (ServiceManager.getActiveServices
          (ServiceManager.initServices w (.ok r) (ServiceManager.resetServices st)).1
        = (activeKinds w r.config).map Service.name)
    ∧ (∀ k, getService k
          (ServiceManager.initServices w (.ok r) (ServiceManager.resetServices st)).1
        = if activeService? w r.config k
          then some (connectorInit w k (r.config k)).1 else none)
    ∧ (∀ k, Service.name k ∈ ServiceManager.getActiveServices
          (ServiceManager.initServices w (.ok r) (ServiceManager.resetServices st)).1
        ↔ activeService? w r.config k = true) := by
  refine ⟨rfl, rfl, ?_, ?_, ?_⟩
  · rw [ServiceManager.getActiveServices, initServices_ok_active, reset_active,
      activeKinds_map_name]
    simp
  · intro k
    rw [initServices_getService, reset_getService]
    cases hA : activeService? w r.config k
    · cases hE : (r.config k).enabled <;> simp
    · simp
  · intro k
    rw [ServiceManager.getActiveServices, initServices_ok_active, reset_active]
    cases k <;>
      cases h1 : activeService? w r.config .postgres <;>
        cases h2 : activeService? w r.config .mysql <;>
          cases h3 : activeService? w r.config .redis <;>
            cases h4 : activeService? w r.config .opensearch <;>
              decide

/-! ## Claim C8 -/

/-- Claim C8: with the configuration sources (and the deterministic backend
environment) unchanged between the two calls, refreshServices is
idempotent: two consecutive calls produce the same active-service set. -/
theorem c8_refresh_idempotent (w : World)
    (resolved : Except Unit ResolvedConfig) (st : ServiceManagerState) :
    ServiceManager.getActiveServices
        (ServiceManager.refreshServices w resolved
          (ServiceManager.refreshServices w resolved st).1).1
      = ServiceManager.getActiveServices
          (ServiceManager.refreshServices w resolved st).1 := by
  rw [ServiceManager.getActiveServices, ServiceManager.getActiveServices,
    refresh_activeServices, refresh_activeServices]

/-! ## Claim C3 -/

/-- Claim C3 counterexample: after a fully successful shutdown the registry
state is not cleared (the active list still names redis), and when the
first connector shutdown throws (PostgreSQL pool end failing) the remaining
connectors are skipped rather than shut down (the MySQL connector is still
live afterwards), refuting the continue-on-error and clears-state parts of
the claim. -/
theorem c3_counterexample :
    (ServiceManager.shutdown wEx
        (ServiceManager.initServices wEx (.ok rEx) {}).1).activeServices = ["redis"]
    ∧ (ServiceManager.shutdown wFailPg
          (ServiceManager.initServices wEx (.ok rPgMy) {}).1).mysqlService
        = some { config := { enabled := true, url := some "mysql://localhost/db" }
                 live := true } := by
  decide

/-- Claim C3 (amended): when no connector shutdown throws, shutdown
releases every retained connector handle, leaves the registry state
(active list, tool list, connector references) in place rather than
clearing it, and is idempotent (a second call finds only released handles,
so it is a no-op with no error and no double release); afterwards
executing any previously-active tool fails with the ServiceNotInitialized
error raised by the connector itself.  When one connector shutdown does
throw, the error is caught and logged but the connectors after it in
source order are left untouched. -/
theorem c3_shutdown_behavior (w : World) (st : ServiceManagerState)
    (resolved : Except Unit ResolvedConfig) (args : ToolArgs)
    (hok : ∀ k, w.shutdownFails k = false) :
    (∀ k, getService k (ServiceManager.shutdown w st)
        = (getService k st).map Connector.stop)
    ∧ (ServiceManager.shutdown w st).activeServices = st.activeServices
    ∧ (ServiceManager.shutdown w st).tools = st.tools
    ∧ ServiceManager.shutdown w (ServiceManager.shutdown w st)
        = ServiceManager.shutdown w st
    ∧ (∀ c, st.postgresService = some c →
        (ServiceManager.executeTool w resolved (ServiceManager.shutdown w st)
            "postgres_query" args).2
          = .error (.serviceNotInitialized "PostgreSQL"))
    ∧ (∀ c, st.mysqlService = some c →
        (ServiceManager.executeTool w resolved (ServiceManager.shutdown w st)
            "mysql_query" args).2
          = .error (.serviceNotInitialized "MySQL"))
    ∧ (∀ c, st.redisService = some c →
        (ServiceManager.executeTool w resolved (ServiceManager.shutdown w st)
            "redis_query" args).2
          = .error (.serviceNotInitialized "Redis")
        ∧ (ServiceManager.executeTool w resolved (ServiceManager.shutdown w st)
            "redis_get" args).2
          = .error (.serviceNotInitialized "Redis")
        ∧ (ServiceManager.executeTool w resolved (ServiceManager.shutdown w st)
            "redis_set" args).2
          = .error (.serviceNotInitialized "Redis"))
    ∧ (∀ c, st.opensearchService = some c →
        (ServiceManager.executeTool w resolved (ServiceManager.shutdown w st)
            "opensearch_search" args).2
          = .error (.serviceNotInitialized "OpenSearch"))
    ∧ (∀ (w2 : World) (c : Connector), w2.shutdownFails .postgres = true →
        st.postgresService = some c → c.live = true →
        ServiceManager.shutdown w2 st = st) := by
  refine ⟨?_, ?_, ?_, ?_, ?_, ?_, ?_, ?_, ?_⟩
  · intro k
    rw [shutdown_noFail w st hok]
    cases k <;> rfl
  · rw [shutdown_noFail w st hok]
  · rw [shutdown_noFail w st hok]
  · rw [shutdown_noFail w st hok, shutdown_noFail w _ hok]
    have hcomp : Connector.stop ∘ Connector.stop = Connector.stop :=
      funext (fun _ => rfl)
    simp [Option.map_map, hcomp]
  · intro c hc
    have hfield : (ServiceManager.shutdown w st).postgresService = some c.stop := by
      rw [shutdown_noFail w st hok]
      simp [hc]
    simp [ServiceManager.executeTool, hfield, PostgresService.dispatchQuery,
      Connector.stop]
  · intro c hc
    have hfield : (ServiceManager.shutdown w st).mysqlService = some c.stop := by
      rw [shutdown_noFail w st hok]
      simp [hc]
    simp [ServiceManager.executeTool, hfield, MySqlService.dispatchQuery,
      Connector.stop]
  · intro c hc
    have hfield : (ServiceManager.shutdown w st).redisService = some c.stop := by
      rw [shutdown_noFail w st hok]
      simp [hc]
    refine ⟨?_, ?_, ?_⟩ <;>
      simp [ServiceManager.executeTool, hfield, RedisService.executeCommand,
        RedisService.dispatchGet, RedisService.dispatchSet, Connector.stop,
        Except.map]
  · intro c hc
    have hfield : (ServiceManager.shutdown w st).opensearchService = some c.stop := by
      rw [shutdown_noFail w st hok]
      simp [hc]
    simp [ServiceManager.executeTool, hfield, OpenSearchService.dispatchSearch,
      Connector.stop]
  · intro w2 c hf hc hl
    unfold ServiceManager.shutdown
    simp [ServiceManager.shutdownStep, hc, hf, connectorShutdown, hl,
      Except.map]

/-- Claim C3 witness: a concrete run of the amended theorem, on the state
with only Redis active: the handle is released, the active list survives,
and redis_get afterwards fails with the Redis not-initialized error. -/
theorem c3_shutdown_behavior_witness :
    (ServiceManager.shutdown wEx
        (ServiceManager.initServices wEx (.ok rEx) {}).1).activeServices
      = (ServiceManager.initServices wEx (.ok rEx) {}).1.activeServices
    ∧ (ServiceManager.executeTool wEx (.ok rEx)
        (ServiceManager.shutdown wEx (ServiceManager.initServices wEx (.ok rEx) {}).1)
        "redis_get" {}).2
      = .error (.serviceNotInitialized "Redis") := by
  have h := c3_shutdown_behavior wEx
    (ServiceManager.initServices wEx (.ok rEx) {}).1 (.ok rEx) {}
    (fun _ => rfl)
  exact ⟨h.2.1, ((h.2.2.2.2.2.2.1 cRedis (by decide)).2.1)⟩

/-! ## Claim C2 -/

/-- Claim C2: configuration resolution applies strict precedence
environment < file < remote for the fields each source sets, and a source
that does not mention a kind leaves the prior layers result for that kind
untouched: a remote primary connection fully overwrites the entry; remote
silence (no connections, none flagged primary, or the remote source
unavailable) preserves the file/env result; a file entry field-wise
overrides the env result and forces enabled, while retaining env fields it
does not set; an absent file or unmentioned kind preserves the env result;
a nonempty environment URL enables the kind with that url; an unset
variable leaves the baseline disabled entry. -/
theorem c2_config_precedence (env : ConfigManager.Env)
    (fil : Option ConfigManager.FileData) (api : ConfigManager.ApiData)
    (k : Service) :
    (∀ conn, ConfigManager.apiPrimary api k = some conn →
      ConfigManager.refreshConfigurations env fil api k
        = { enabled := true
            url := some (conn.dsn.getD "")
            options := some { connection := some conn } })
    ∧ (ConfigManager.apiPrimary api k = none →
      ConfigManager.refreshConfigurations env fil api k
        = ConfigManager.loadFromFile fil
            (ConfigManager.loadFromEnv env ConfigManager.baseline) k)
    ∧ (∀ fd e, fil = some fd → fd k = some e →
      ConfigManager.loadFromFile fil
          (ConfigManager.loadFromEnv env ConfigManager.baseline) k
        = { enabled := true
            url := e.url.orElse
              (fun _ => (ConfigManager.loadFromEnv env ConfigManager.baseline k).url)
            options := e.options.orElse
              (fun _ => (ConfigManager.loadFromEnv env ConfigManager.baseline k).options) })
    ∧ (∀ fd, fil = some fd → fd k = none →
      ConfigManager.loadFromFile fil
          (ConfigManager.loadFromEnv env ConfigManager.baseline) k
        = ConfigManager.loadFromEnv env ConfigManager.baseline k)
    ∧ (fil = none →
      ConfigManager.loadFromFile fil
          (ConfigManager.loadFromEnv env ConfigManager.baseline) k
        = ConfigManager.loadFromEnv env ConfigManager.baseline k)
    ∧ (∀ v, env k = some v → v ≠ "" →
      ConfigManager.loadFromEnv env ConfigManager.baseline k
        = { enabled := true, url := some v, options := none })
    ∧ (env k = none →
      ConfigManager.loadFromEnv env ConfigManager.baseline k
        = { enabled := false, url := none, options := none }) := by
  refine ⟨?_, ?_, ?_, ?_, ?_, ?_, ?_⟩
  · intro conn hconn
    simp [ConfigManager.refreshConfigurations, ConfigManager.discoverServices,
      ConfigManager.fetchFromApi, hconn]
  · intro hnone
    simp [ConfigManager.refreshConfigurations, ConfigManager.discoverServices,
      ConfigManager.fetchFromApi, hnone]
  · intro fd e hfil he
    simp [ConfigManager.loadFromFile, hfil, he]
  · intro fd hfil he
    simp [ConfigManager.loadFromFile, hfil, he]
  · intro hfil
    simp [ConfigManager.loadFromFile, hfil]
  · intro v hv hne
    simp [ConfigManager.loadFromEnv, hv, hne]
  · intro hv
    simp [ConfigManager.loadFromEnv, hv, ConfigManager.baseline]

/-- The environment of the claimed example: relational-A URL set to A. -/
def envAB : ConfigManager.Env := fun k =>
  match k with
  | .postgres => some "A"
  | _ => none

/-- The file of the claimed example: a postgres entry setting url to B. -/
def fdAB : ConfigManager.FileData := fun k =>
  match k with
  | .postgres => some { url := some "B" }
  | _ => none

/-- The remote response of the claimed example: a postgres connections
array with no entry flagged primary. -/
def apiNoPrim : ConfigManager.ApiData :=
  .integrations (fun k =>
    match k with
    | .postgres => some [{ dsn := some "remote-dsn", name := some "r"
                           is_primary := some false }]
    | _ => none)

/-- Claim C2 witness: env sets the postgres URL to A, the file sets it to
B, the remote response lists no primary postgres connection; the resolved
URL is B and the kind is enabled. -/
theorem c2_config_precedence_witness :
    ConfigManager.refreshConfigurations envAB (some fdAB) apiNoPrim
        Service.postgres
      = { enabled := true, url := some "B", options := none } := by
  have h := c2_config_precedence envAB (some fdAB) apiNoPrim Service.postgres
  rw [h.2.1 (by decide),
    h.2.2.1 fdAB { url := some "B" } rfl rfl,
    h.2.2.2.2.2.1 "A" rfl (by decide)]
  rfl

/-! ## Claim C9 -/

/-- An environment with no variable set. -/
def envNone : ConfigManager.Env := fun _ => none

/-- A configuration file holding an empty object under the postgres key. -/
def fdEmptyPg : ConfigManager.FileData := fun k =>
  match k with
  | .postgres => some {} 
  | _ => none

/-- Claim C9 counterexample: a configuration file whose postgres entry is
an empty object forces enabled = true while leaving both the connection
string and options.connection.dsn absent, refuting the claimed invariant
that enabled implies a nonempty connection source. -/
theorem c9_counterexample :
    (ConfigManager.refreshConfigurations envNone (some fdEmptyPg)
        .unavailable Service.postgres).enabled = true
    ∧ (ConfigManager.refreshConfigurations envNone (some fdEmptyPg)
        .unavailable Service.postgres).url = none
    ∧ (ConfigManager.refreshConfigurations envNone (some fdEmptyPg)
        .unavailable Service.postgres).options = none := by
  decide

/-- Claim C9 (amended): a ServiceConfig with enabled = false is never
handed to a connector constructor (the registry leaves the service field
of a disabled kind untouched, and every connector it stores was built from
the enabled config of its kind); the environment layer does guarantee a
nonempty url for the kinds it enables; but the file layer forces enabled
for every well-known key present in the file even when the entry carries
no url and no connection dsn, so enabled alone does not imply a nonempty
connection source. -/
theorem c9_enabled_invariant (w : World) (r : ResolvedConfig)
    (st : ServiceManagerState) (env : ConfigManager.Env) (k : Service) :
    ((r.config k).enabled = false →
      getService k (ServiceManager.initServices w (.ok r) st).1
        = getService k st)
    ∧ (∀ c, getService k
          (ServiceManager.initServices w (.ok r) (ServiceManager.resetServices st)).1
        = some c → c.config = r.config k ∧ (r.config k).enabled = true)
    ∧ (∀ v, env k = some v → v ≠ "" →
      (ConfigManager.loadFromEnv env ConfigManager.baseline k).enabled = true
      ∧ (ConfigManager.loadFromEnv env ConfigManager.baseline k).url = some v) := by
  refine ⟨?_, ?_, ?_⟩
  · intro hE
    rw [initServices_getService]
    simp [hE, activeService?]
  · intro c hc
    rw [initServices_getService, reset_getService] at hc
    by_cases hA : activeService? w r.config k = true
    · rw [if_pos hA] at hc
      have hconf : (connectorInit w k (r.config k)).1.config = r.config k := by
        unfold connectorInit
        cases h : (connectionDsn (r.config k)).orElse
            (fun _ => ConfigManager.jsTruthy (r.config k).url) <;> simp
      have hE : (r.config k).enabled = true := by
        have := hA
        unfold activeService? at this
        exact ((Bool.and_eq_true _ _).mp this).1
      cases hc
      exact ⟨hconf, hE⟩
    · rw [if_neg hA] at hc
      cases hE : (r.config k).enabled <;> simp [hE] at hc
  · intro v hv hne
    simp [ConfigManager.loadFromEnv, hv, hne]

/-- Claim C9 witness: on the redis-only configuration the disabled
postgres kind leaves its (absent) connector field untouched, the stored
redis connector was built from the enabled redis config, and the env-layer
guarantee holds for a concrete variable value. -/
theorem c9_enabled_invariant_witness :
    getService .postgres (ServiceManager.initServices wEx (.ok rEx) {}).1 = none
    ∧ ((cRedis.config = cfgRedisOnly .redis) ∧ (cfgRedisOnly .redis).enabled = true)
    ∧ (ConfigManager.loadFromEnv envAB ConfigManager.baseline .postgres).enabled = true := by
  have h := c9_enabled_invariant wEx rEx {} envAB Service.postgres
  have h2 := c9_enabled_invariant wEx rEx {} envAB Service.redis
  refine ⟨?_, ?_, ?_⟩
  · have := h.1 (by decide)
    simpa using this
  · exact h2.2.1 cRedis (by decide)
  · exact (h.2.2 "A" rfl (by decide)).1


/-! ## Claim C5 -/

theorem executeCommand_live (c : Connector) (hl : c.live = true)
    (s : String) :
    RedisService.executeCommand c s
      = if allowedCommands.contains (firstTokenUpper s)
        then .ok (jsSplitWs s)
        else .error (.commandNotAllowed (firstTokenUpper s)) := by
  unfold RedisService.executeCommand firstTokenUpper
  rw [hl]
  rfl

/-- Claim C5: on an initialized key-value connector, any command whose
upper-cased first token is outside the allow-list fails with the
command-not-allowed error before anything is sent to the backend (an error
return carries no sendCommand argument vector); in particular FLUSHALL is
rejected, while GET mykey passes the allow-list and is sent to the backend
as the argument vector GET, mykey. -/
theorem c5_redis_allowlist (c : Connector) (hl : c.live = true) :
    RedisService.executeCommand c "FLUSHALL"
      = .error (.commandNotAllowed "FLUSHALL")
    ∧ RedisService.executeCommand c "GET mykey" = .ok ["GET", "mykey"]
    ∧ (∀ command, firstTokenUpper command ∉ allowedCommands →
        RedisService.executeCommand c command
          = .error (.commandNotAllowed (firstTokenUpper command))) := by
  refine ⟨?_, ?_, ?_⟩
  · rw [executeCommand_live c hl]
    have h1 : firstTokenUpper "FLUSHALL" = "FLUSHALL" := by decide
    rw [h1, if_neg (by decide)]
  · rw [executeCommand_live c hl]
    rw [if_pos (by decide)]
    have : jsSplitWs "GET mykey" = ["GET", "mykey"] := by decide
    rw [this]
  · intro command hmem
    rw [executeCommand_live c hl]
    rw [if_neg (fun hc => hmem (List.elem_iff.mp hc))]

/-- Claim C5 witness: the two concrete commands of the claim, on the live
Redis connector fixture. -/
theorem c5_redis_allowlist_witness :
    RedisService.executeCommand cRedis "FLUSHALL"
      = .error (.commandNotAllowed "FLUSHALL")
    ∧ RedisService.executeCommand cRedis "GET mykey" = .ok ["GET", "mykey"] := by
  have h := c5_redis_allowlist cRedis rfl
  exact ⟨h.1, h.2.1⟩

/-! ## Claim C10 -/

theorem firstTokenUpper_of_ws (cmd : String)
    (h : cmd.data.all isJsWs = true) : firstTokenUpper cmd = "" := by
  unfold firstTokenUpper jsSplitWs splitWsChars
  cases hd : cmd.data with
  | nil => rfl
  | cons ch rest =>
    have hch : isJsWs ch = true := by
      rw [hd] at h
      simp [List.all_cons] at h
      exact h.1
    rw [splitWsCharsAux]
    simp [hch]
    decide

/-- Claim C10: on an initialized key-value connector, admissibility of a
command is decided solely by its first whitespace-delimited token converted
to upper case (so two commands with the same upper-cased first token are
accepted or rejected together and arguments after the first token are
never validated), and an empty or whitespace-only command string is
rejected with the not-allowed error (carrying the empty command name)
rather than crashing. -/
theorem c10_redis_command_parsing (c : Connector) (cmd cmd2 : String)
    (hl : c.live = true) :
    ((RedisService.executeCommand c cmd).isOk = true
      ↔ firstTokenUpper cmd ∈ allowedCommands)
    ∧ (firstTokenUpper cmd = firstTokenUpper cmd2 →
        (RedisService.executeCommand c cmd).isOk
          = (RedisService.executeCommand c cmd2).isOk)
    ∧ (cmd.data.all isJsWs = true →
        RedisService.executeCommand c cmd = .error (.commandNotAllowed "")) := by
  have hchar : ∀ s, (RedisService.executeCommand c s).isOk
      = allowedCommands.contains (firstTokenUpper s) := by
    intro s
    rw [executeCommand_live c hl s]
    cases hc : allowedCommands.contains (firstTokenUpper s)
    · rw [if_neg (by simp [hc])]
      rfl
    · rw [if_pos (by simp [hc])]
      rfl
  refine ⟨?_, ?_, ?_⟩
  · rw [hchar cmd]
    exact List.elem_iff
  · intro heq
    rw [hchar cmd, hchar cmd2, heq]
  · intro hws
    have hf : firstTokenUpper cmd = "" := firstTokenUpper_of_ws cmd hws
    rw [executeCommand_live c hl cmd, hf, if_neg (by decide)]

/-- Claim C10 witness: the lower-case command is accepted exactly like its
upper-case form (their upper-cased first tokens agree), and a
whitespace-only command is rejected with the empty command name. -/
theorem c10_redis_command_parsing_witness :
    (RedisService.executeCommand cRedis "get mykey").isOk = true
    ∧ RedisService.executeCommand cRedis "   "
      = .error (.commandNotAllowed "") := by
  have h := c10_redis_command_parsing cRedis "get mykey" "GET mykey" rfl
  have h2 := c10_redis_command_parsing cRedis "   " "" rfl
  exact ⟨h.1.mpr (by decide), h2.2.2 (by decide)⟩

/-! ## Claim C6 -/

/-- Claim C6: on an initialized relational connector, every invoked query
runs strictly inside a read-only transaction and the finally block always
attempts the rollback and the release afterwards, whatever the query
outcome; the rollback outcome never changes the caller-visible result
(rollback failures are only logged); the query result itself propagates
verbatim, success or failure.  Both relational variants are covered. -/
theorem c6_readonly_rollback (c : Connector) (b : DbOutcome) (sql : String)
    (hl : c.live = true) :
    (∃ pre, (PostgresService.executeQuery c b sql).2
        = pre ++ [DbOp.query "ROLLBACK", DbOp.release])
    ∧ (∃ pre, (MySqlService.executeQuery c b sql).2
        = pre ++ [DbOp.rollbackTx, DbOp.release])
    ∧ (∀ rb rb2, (PostgresService.executeQuery c { b with rollbackOk := rb } sql).1
        = (PostgresService.executeQuery c { b with rollbackOk := rb2 } sql).1)
    ∧ (∀ rb rb2, (MySqlService.executeQuery c { b with rollbackOk := rb } sql).1
        = (MySqlService.executeQuery c { b with rollbackOk := rb2 } sql).1)
    ∧ (b.beginOk = true →
        (PostgresService.executeQuery c b sql).2
          = [DbOp.query "BEGIN TRANSACTION READ ONLY", DbOp.query sql,
             DbOp.query "ROLLBACK", DbOp.release]
        ∧ (MySqlService.executeQuery c b sql).2
          = [DbOp.query "SET SESSION TRANSACTION READ ONLY", DbOp.beginTx,
             DbOp.query sql, DbOp.rollbackTx, DbOp.release])
    ∧ (∀ rows, b.result = .ok rows → b.beginOk = true →
        (PostgresService.executeQuery c b sql).1 = .ok rows
        ∧ (MySqlService.executeQuery c b sql).1 = .ok rows)
    ∧ (∀ e, b.result = .error e → b.beginOk = true →
        (PostgresService.executeQuery c b sql).1 = .error (.upstream e)
        ∧ (MySqlService.executeQuery c b sql).1 = .error (.upstream e)) := by
  refine ⟨?_, ?_, ?_, ?_, ?_, ?_, ?_⟩
  · cases hb : b.beginOk
    · exact ⟨[DbOp.query "BEGIN TRANSACTION READ ONLY"],
        by simp [PostgresService.executeQuery, hl, hb]⟩
    · cases hr : b.result with
      | error e =>
        exact ⟨[DbOp.query "BEGIN TRANSACTION READ ONLY", DbOp.query sql],
          by simp [PostgresService.executeQuery, hl, hb, hr]⟩
      | ok rows =>
        exact ⟨[DbOp.query "BEGIN TRANSACTION READ ONLY", DbOp.query sql],
          by simp [PostgresService.executeQuery, hl, hb, hr]⟩
  · cases hb : b.beginOk
    · exact ⟨[DbOp.query "SET SESSION TRANSACTION READ ONLY"],
        by simp [MySqlService.executeQuery, hl, hb]⟩
    · cases hr : b.result with
      | error e =>
        exact ⟨[DbOp.query "SET SESSION TRANSACTION READ ONLY", DbOp.beginTx,
            DbOp.query sql],
          by simp [MySqlService.executeQuery, hl, hb, hr]⟩
      | ok rows =>
        exact ⟨[DbOp.query "SET SESSION TRANSACTION READ ONLY", DbOp.beginTx,
            DbOp.query sql],
          by simp [MySqlService.executeQuery, hl, hb, hr]⟩
  · intro rb rb2
    cases hb : b.beginOk <;> cases hr : b.result <;>
      simp [PostgresService.executeQuery, hl, hb, hr]
  · intro rb rb2
    cases hb : b.beginOk <;> cases hr : b.result <;>
      simp [MySqlService.executeQuery, hl, hb, hr]
  · intro hb
    cases hr : b.result <;>
      exact ⟨by simp [PostgresService.executeQuery, hl, hb, hr],
        by simp [MySqlService.executeQuery, hl, hb, hr]⟩
  · intro rows hr hb
    exact ⟨by simp [PostgresService.executeQuery, hl, hb, hr],
      by simp [MySqlService.executeQuery, hl, hb, hr]⟩
  · intro e hr hb
    exact ⟨by simp [PostgresService.executeQuery, hl, hb, hr],
      by simp [MySqlService.executeQuery, hl, hb, hr]⟩

/-- A live PostgreSQL connector fixture. -/
def cPg : Connector :=
  { config := { enabled := true, url := some "postgresql://localhost/db" }
    live := true }

/-- A backend outcome whose invoked query succeeds with one row. -/
def bOkRow : DbOutcome := { result := .ok ["r1"] }

/-- Claim C6 witness: the spec example, a DELETE statement invoked through
the read-only wrapper on a live connector: it returns the backend result
and the trace shows it ran between the read-only BEGIN and the rollback. -/
theorem c6_readonly_rollback_witness :
    (PostgresService.executeQuery cPg bOkRow "DELETE FROM t").1 = .ok ["r1"]
    ∧ (PostgresService.executeQuery cPg bOkRow "DELETE FROM t").2
      = [DbOp.query "BEGIN TRANSACTION READ ONLY", DbOp.query "DELETE FROM t",
         DbOp.query "ROLLBACK", DbOp.release] := by
  have h := c6_readonly_rollback cPg bOkRow "DELETE FROM t" rfl
  exact ⟨(h.2.2.2.2.2.1 ["r1"] rfl rfl).1, (h.2.2.2.2.1 rfl).1⟩

/-! ## Claim C7 -/

/-- Claim C7: the refresh tool is handled inside the registry: it runs
refreshServices and returns the status summary (status, message,
apiIntegrated, activeServices) built from the refreshed state, so the
reported active-service list is the newly active one; every other
recognized tool name is routed to its owning connector after the null
check on the service field, a null field failing with the
ServiceNotInitialized error of that service; an unrecognized name falls
through to the UnknownTool error. -/
theorem c7_execute_routing (w : World) (resolved : Except Unit ResolvedConfig)
    (st : ServiceManagerState) (args : ToolArgs) (toolName : String) :
    (ServiceManager.executeTool w resolved st "refresh_skeet_tools" args
      = ((ServiceManager.refreshServices w resolved st).1,
         .ok (.refreshSummary
           (if (ServiceManager.refreshServices w resolved st).2
            then "success" else "error")
           (if (ServiceManager.refreshServices w resolved st).2
            then "Successfully refreshed Skeet tools and configurations"
            else "Failed to refresh Skeet tools and configurations")
           (ServiceManager.refreshServices w resolved st).1.isApiAuthenticated
           (ServiceManager.getActiveServices
             (ServiceManager.refreshServices w resolved st).1))))
    ∧ (st.postgresService = none →
        ServiceManager.executeTool w resolved st "postgres_query" args
          = (st, .error (.serviceNotInitialized "PostgreSQL")))
    ∧ (∀ c, st.postgresService = some c →
        ServiceManager.executeTool w resolved st "postgres_query" args
          = (st, PostgresService.dispatchQuery c args.sql))
    ∧ (st.mysqlService = none →
        ServiceManager.executeTool w resolved st "mysql_query" args
          = (st, .error (.serviceNotInitialized "MySQL")))
    ∧ (∀ c, st.mysqlService = some c →
        ServiceManager.executeTool w resolved st "mysql_query" args
          = (st, MySqlService.dispatchQuery c args.sql))
    ∧ (st.redisService = none →
        ServiceManager.executeTool w resolved st "redis_query" args
          = (st, .error (.serviceNotInitialized "Redis"))
        ∧ ServiceManager.executeTool w resolved st "redis_get" args
          = (st, .error (.serviceNotInitialized "Redis"))
        ∧ ServiceManager.executeTool w resolved st "redis_set" args
          = (st, .error (.serviceNotInitialized "Redis")))
    ∧ (∀ c, st.redisService = some c →
        ServiceManager.executeTool w resolved st "redis_query" args
          = (st, (RedisService.executeCommand c args.command).map .redisSend)
        ∧ ServiceManager.executeTool w resolved st "redis_get" args
          = (st, RedisService.dispatchGet c args.key)
        ∧ ServiceManager.executeTool w resolved st "redis_set" args
          = (st, RedisService.dispatchSet c args.key args.value args.expiry))
    ∧ (st.opensearchService = none →
        ServiceManager.executeTool w resolved st "opensearch_search" args
          = (st, .error (.serviceNotInitialized "OpenSearch")))
    ∧ (∀ c, st.opensearchService = some c →
        ServiceManager.executeTool w resolved st "opensearch_search" args
          = (st, OpenSearchService.dispatchSearch c args.query args.index))
    ∧ (toolName ∉ knownToolNames →
        ServiceManager.executeTool w resolved st toolName args
          = (st, .error (.unknownTool toolName))) := by
  refine ⟨rfl, ?_, ?_, ?_, ?_, ?_, ?_, ?_, ?_, ?_⟩
  · intro h
    simp [ServiceManager.executeTool, h]
  · intro c h
    simp [ServiceManager.executeTool, h]
  · intro h
    simp [ServiceManager.executeTool, h]
  · intro c h
    simp [ServiceManager.executeTool, h]
  · intro h
    exact ⟨by simp [ServiceManager.executeTool, h],
      by simp [ServiceManager.executeTool, h],
      by simp [ServiceManager.executeTool, h]⟩
  · intro c h
    exact ⟨by simp [ServiceManager.executeTool, h],
      by simp [ServiceManager.executeTool, h],
      by simp [ServiceManager.executeTool, h]⟩
  · intro h
    simp [ServiceManager.executeTool, h]
  · intro c h
    simp [ServiceManager.executeTool, h]
  · intro h
    simp only [knownToolNames, List.mem_cons, List.not_mem_nil, or_false,
      not_or] at h
    obtain ⟨h1, h2, h3, h4, h5, h6, h7⟩ := h
    simp [ServiceManager.executeTool, h1, h2, h3, h4, h5, h6, h7]

/-- A registry state with a live PostgreSQL connector and no Redis
connector, for exercising the routing branches. -/
def stRoute : ServiceManagerState :=
  { postgresService := some cPg, activeServices := ["postgres"] }

/-- Claim C7 witness: on a state with PostgreSQL active and Redis absent,
postgres_query is delegated to the connector, redis_query fails with the
Redis ServiceNotInitialized error, and an unknown name fails with
UnknownTool. -/
theorem c7_execute_routing_witness :
    ServiceManager.executeTool wEx (.ok rEx) stRoute "postgres_query"
        { sql := "SELECT 1" }
      = (stRoute, .ok (.pgQuery "SELECT 1"))
    ∧ (ServiceManager.executeTool wEx (.ok rEx) stRoute "redis_query" {}).2
      = .error (.serviceNotInitialized "Redis")
    ∧ (ServiceManager.executeTool wEx (.ok rEx) stRoute "no_such_tool" {}).2
      = .error (.unknownTool "no_such_tool") := by
  have h := c7_execute_routing wEx (.ok rEx) stRoute { sql := "SELECT 1" }
    "no_such_tool"
  have h2 := c7_execute_routing wEx (.ok rEx) stRoute {} "no_such_tool"
  refine ⟨?_, ?_, ?_⟩
  · rw [h.2.2.1 cPg rfl]
    rfl
  · rw [(h2.2.2.2.2.2.1 rfl).1]
  · rw [h2.2.2.2.2.2.2.2.2.2 (by decide)]

/-- Claim C1 witness: a concrete refresh with only Redis enabled yields
exactly the Redis tools followed by the refresh tool. -/
theorem c1_tools_recomputed_on_refresh_witness :
    ServiceManager.getTools
        (ServiceManager.refreshServices wEx (.ok rEx) {}).1
      = RedisService.tools ++ [refreshTool] := by
  have h := c1_tools_recomputed_on_refresh wEx rEx {}
  exact h.2.1.trans (by decide)

/-- A world in which only the MySQL probe fails (the backend is
unreachable) while every other backend connects. -/
def wNoMy : World :=
  { canConnect := fun k _ => !(k = .mysql), shutdownFails := fun _ => false }

/-- Claim C4 witness: with PostgreSQL and MySQL enabled but MySQL
unreachable, initialize still returns true overall and only MySQL is
missing from the active-service list. -/
theorem c4_initialize_overall_success_witness :
    (ServiceManager.initServices wNoMy (.ok rPgMy)
        (ServiceManager.resetServices {})).2 = true
    ∧ ServiceManager.getActiveServices
        (ServiceManager.initServices wNoMy (.ok rPgMy)
          (ServiceManager.resetServices {})).1
      = ["postgres"] := by
  have h := c4_initialize_overall_success wNoMy rPgMy {}
  exact ⟨h.1, h.2.2.1.trans (by decide)⟩

/-- Claim C8 witness: the idempotence theorem instantiated at the concrete
redis-only scenario. -/
theorem c8_refresh_idempotent_witness :
    ServiceManager.getActiveServices
        (ServiceManager.refreshServices wEx (.ok rEx)
          (ServiceManager.refreshServices wEx (.ok rEx) {}).1).1
      = ServiceManager.getActiveServices
          (ServiceManager.refreshServices wEx (.ok rEx) {}).1 :=
  c8_refresh_idempotent wEx (.ok rEx) {}
